import Mathlib

/-!
Shallow embedding of the geodesic shot-analysis engine of the golf GPS app
(`src/services/math.ts` and `src/services/storage.ts`), together with proofs
of the specified properties.

Modelling conventions:
* JavaScript `number` values are modelled by `ℝ` (exact real arithmetic; the
  floating-point rounding behaviour itself is outside the embedding).
* `Math.sin`, `Math.cos`, `Math.sqrt`, `Math.asin`, `Math.acos`, `Math.atan`
  are modelled by the corresponding Mathlib real functions (`Real.sqrt`,
  `Real.arcsin` and `Real.arccos` are the usual total extensions).
* `Math.atan2` is not in Mathlib; `atan2` below is its standard mathematical
  definition by cases on the quadrant, with `atan2 0 0 = 0`.
* The JavaScript remainder `a % b` (truncated division) is `jsMod`.
* String ids are kept as `String`; `localeCompare` ordering is modelled by
  the total order on `String`.
* The Dexie `clubStats` table keyed by `clubName` is modelled as a total map
  `Club → Option ClubStats`; a JavaScript `Map<Club, number[]>` is modelled
  as a total map `Club → List ℝ` with `[]` for an absent key.
-/

noncomputable section

open Real List

/-- Geographic coordinate, `{lat, lng}` in degrees (from `types.ts`). -/
@[ext]
structure Coordinate where
  lat : ℝ
  lng : ℝ

def EARTH_RADIUS_METERS : ℝ := 6371000

def toRadians (degrees : ℝ) : ℝ := degrees * Real.pi / 180

def toDegrees (radians : ℝ) : ℝ := radians * 180 / Real.pi

/-- Model of `Math.atan2 y x`: the angle of the point `(x, y)` in `(-π, π]`,
with `atan2 0 0 = 0`. -/
def atan2 (y x : ℝ) : ℝ :=
  if 0 < x then Real.arctan (y / x)
  else if x < 0 ∧ 0 ≤ y then Real.arctan (y / x) + Real.pi
  else if x < 0 ∧ y < 0 then Real.arctan (y / x) - Real.pi
  else if x = 0 ∧ 0 < y then Real.pi / 2
  else if x = 0 ∧ y < 0 then -(Real.pi / 2)
  else 0

/-- Truncation toward zero, as used by the JavaScript `%` operator. -/
def jsTrunc (x : ℝ) : ℤ := if 0 ≤ x then ⌊x⌋ else ⌈x⌉

/-- Model of the JavaScript remainder `a % b` (sign of the dividend). -/
def jsMod (a b : ℝ) : ℝ := a - b * (jsTrunc (a / b) : ℝ)

/-- Haversine great-circle distance in meters (`calculateDistance` in
`math.ts`). -/
def calculateDistance (p q : Coordinate) : ℝ :=
  let lat1 := toRadians p.lat
  let lat2 := toRadians q.lat
  let deltaLat := toRadians (q.lat - p.lat)
  let deltaLng := toRadians (q.lng - p.lng)
  let a := Real.sin (deltaLat / 2) * Real.sin (deltaLat / 2) +
    Real.cos lat1 * Real.cos lat2 * Real.sin (deltaLng / 2) * Real.sin (deltaLng / 2)
  let c := 2 * atan2 (Real.sqrt a) (Real.sqrt (1 - a))
  EARTH_RADIUS_METERS * c

/-- Initial bearing in degrees `[0, 360)` (`calculateBearing` in `math.ts`). -/
def calculateBearing (p q : Coordinate) : ℝ :=
  let lat1 := toRadians p.lat
  let lat2 := toRadians q.lat
  let deltaLng := toRadians (q.lng - p.lng)
  let y := Real.sin deltaLng * Real.cos lat2
  let x := Real.cos lat1 * Real.sin lat2 - Real.sin lat1 * Real.cos lat2 * Real.cos deltaLng
  let bearing := toDegrees (atan2 y x)
  jsMod (bearing + 360) 360

/-- Signed cross-track distance in meters, positive to the right of the
start→end line (`calculateCrossTrackDistance` in `math.ts`). -/
def calculateCrossTrackDistance (point lineStart lineEnd : Coordinate) : ℝ :=
  let distanceToStart := calculateDistance lineStart point / EARTH_RADIUS_METERS
  let bearingToPoint := toRadians (calculateBearing lineStart point)
  let bearingToEnd := toRadians (calculateBearing lineStart lineEnd)
  let crossTrack := Real.arcsin (Real.sin distanceToStart * Real.sin (bearingToPoint - bearingToEnd))
  crossTrack * EARTH_RADIUS_METERS

/-- Along-track distance in meters (`calculateAlongTrackDistance` in
`math.ts`). -/
def calculateAlongTrackDistance (point lineStart lineEnd : Coordinate) : ℝ :=
  let distanceToStart := calculateDistance lineStart point / EARTH_RADIUS_METERS
  let crossTrack := calculateCrossTrackDistance point lineStart lineEnd / EARTH_RADIUS_METERS
  let alongTrack := Real.arccos (Real.cos distanceToStart / Real.cos crossTrack)
  alongTrack * EARTH_RADIUS_METERS

/-- Miss-direction label (from `types.ts`). -/
inductive MissDirection where
  | LEFT
  | RIGHT
  | ON_LINE
deriving DecidableEq

/-- Miss-length label (from `types.ts`). -/
inductive MissLength where
  | SHORT
  | LONG
  | OK
deriving DecidableEq

/-- Classify a shot's lateral miss (`classifyMissDirection` in `math.ts`;
the source defaults `threshold` to 5). -/
def classifyMissDirection (crossTrackDistance threshold : ℝ) : MissDirection :=
  if |crossTrackDistance| < threshold then MissDirection.ON_LINE
  else if crossTrackDistance > 0 then MissDirection.RIGHT
  else MissDirection.LEFT

/-- Classify a shot's length miss (`classifyMissLength` in `math.ts`; the
source defaults `threshold` to 10). -/
def classifyMissLength (shotEndpoint tee green : Coordinate) (threshold : ℝ) : MissLength :=
  let totalHoleDistance := calculateDistance tee green
  let distanceToGreen := calculateDistance shotEndpoint green
  let alongTrack := calculateAlongTrackDistance shotEndpoint tee green
  if alongTrack > totalHoleDistance + threshold then MissLength.LONG
  else if distanceToGreen < threshold then MissLength.OK
  else if alongTrack < totalHoleDistance - threshold ∧ distanceToGreen > threshold then MissLength.SHORT
  else MissLength.OK

/-- Result record of `calculateDistanceStats` in `math.ts`. -/
structure DistanceStats where
  avg : ℝ
  median : ℝ
  stdDev : ℝ
  min : ℝ
  max : ℝ

/-- Descriptive statistics of a list of distances (`calculateDistanceStats`
in `math.ts`). `sort((a, b) => a - b)` is the ascending sort, modelled by
`mergeSort`; `reduce((a, b) => a + b, 0)` is a left fold from 0. -/
def calculateDistanceStats (distances : List ℝ) : DistanceStats :=
  if distances.length = 0 then ⟨0, 0, 0, 0, 0⟩
  else
    let sorted := distances.mergeSort
    let sum := distances.foldl (fun a b => a + b) 0
    let avg := sum / (distances.length : ℝ)
    let median :=
      if distances.length % 2 = 0 then
        (sorted.getD (distances.length / 2 - 1) 0 + sorted.getD (distances.length / 2) 0) / 2
      else sorted.getD (distances.length / 2) 0
    let squaredDiffs := distances.map (fun d => (d - avg) ^ 2)
    let avgSquaredDiff := squaredDiffs.foldl (fun a b => a + b) 0 / (distances.length : ℝ)
    let stdDev := Real.sqrt avgSquaredDiff
    ⟨avg, median, stdDev, sorted.getD 0 0, sorted.getD (sorted.length - 1) 0⟩

/-- Destination point from a start, bearing (degrees) and distance (meters)
(`getDestination` in `math.ts`). -/
def getDestination (start : Coordinate) (bearingDeg distanceMeters : ℝ) : Coordinate :=
  let lat1 := toRadians start.lat
  let lng1 := toRadians start.lng
  let bearing := toRadians bearingDeg
  let angularDistance := distanceMeters / EARTH_RADIUS_METERS
  let lat2 := Real.arcsin (Real.sin lat1 * Real.cos angularDistance +
    Real.cos lat1 * Real.sin angularDistance * Real.cos bearing)
  let lng2 := lng1 + atan2 (Real.sin bearing * Real.sin angularDistance * Real.cos lat1)
    (Real.cos angularDistance - Real.sin lat1 * Real.sin lat2)
  ⟨toDegrees lat2, toDegrees lng2⟩

/-- Club identifier (from `types.ts`; `3wood` is `wood3` and so on, since
Lean names cannot start with a digit). -/
inductive Club where
  | driver
  | wood3
  | wood5
  | wood7
  | hybrid
  | iron2
  | iron3
  | iron4
  | iron5
  | iron6
  | iron7
  | iron8
  | iron9
  | pw
  | gw
  | sw
  | lw
  | putter
deriving DecidableEq

/-- Lie type of a shot (from `types.ts`). -/
inductive LieType where
  | tee
  | fairway
  | rough
  | sand
  | green
  | other
deriving DecidableEq

/-- Stored shot record (from `types.ts`). -/
structure Shot where
  id : String
  roundId : String
  holeNumber : ℕ
  shotNumber : ℕ
  lat : ℝ
  lng : ℝ
  accuracyMeters : Option ℝ
  timestamp : ℝ
  club : Option Club
  lieType : LieType
  isPutt : Bool
  userAdjusted : Bool
  note : Option String
  missDirection : Option MissDirection
  missLength : Option MissLength
  distanceToNext : Option ℝ

/-- Hazard overlay on a hole (from `types.ts`; unused by the engine). -/
structure Hazard where
  id : String
  kind : String
  coordinates : List Coordinate

/-- Stored hole record (from `types.ts`). -/
structure Hole where
  id : String
  courseId : String
  holeNumber : ℕ
  par : Option ℕ
  teeLat : ℝ
  teeLng : ℝ
  greenLat : ℝ
  greenLng : ℝ
  greenPolygon : Option (List Coordinate)
  hazards : Option (List Hazard)

/-- Cached per-club distance profile (from `types.ts`). -/
structure ClubStats where
  clubName : Club
  avgDistance : ℝ
  medianDistance : ℝ
  stdDev : ℝ
  sampleCount : ℕ
  lastUpdated : ℝ
  minDistance : ℝ
  maxDistance : ℝ

/-- Comparator of `computeAndCacheClubStats`: by round id (`localeCompare`),
then hole number, then shot number. -/
def shotLE (a b : Shot) : Bool :=
  decide (a.roundId < b.roundId ∨ (a.roundId = b.roundId ∧
    (a.holeNumber < b.holeNumber ∨ (a.holeNumber = b.holeNumber ∧ a.shotNumber ≤ b.shotNumber))))

/-- The `shots.sort(...)` step of `computeAndCacheClubStats`. -/
def sortShots (shots : List Shot) : List Shot := shots.mergeSort shotLE

/-- One iteration of the pair loop of `computeAndCacheClubStats`: skip the
pair if it spans a round or hole boundary, the first shot is a putt or has
no club, or the distance is an outlier; otherwise append the distance to the
first shot's club entry. -/
def stepPair (m : Club → List ℝ) (shot nextShot : Shot) : Club → List ℝ :=
  if shot.roundId ≠ nextShot.roundId ∨ shot.holeNumber ≠ nextShot.holeNumber ∨
      shot.isPutt = true ∨ shot.club = none then m
  else if calculateDistance ⟨shot.lat, shot.lng⟩ ⟨nextShot.lat, nextShot.lng⟩ < 10 ∨
      calculateDistance ⟨shot.lat, shot.lng⟩ ⟨nextShot.lat, nextShot.lng⟩ > 350 then m
  else fun c => if shot.club = some c then
    m c ++ [calculateDistance ⟨shot.lat, shot.lng⟩ ⟨nextShot.lat, nextShot.lng⟩] else m c

/-- The consecutive-pair loop of `computeAndCacheClubStats` over the sorted
shot list, threading the `clubDistances` map. -/
def buildClubDistances : (Club → List ℝ) → List Shot → (Club → List ℝ)
  | m, shot :: nextShot :: rest => buildClubDistances (stepPair m shot nextShot) (nextShot :: rest)
  | m, _ => m

/-- The `clubDistances` map built by `computeAndCacheClubStats`. -/
def clubDistances (shots : List Shot) : Club → List ℝ :=
  buildClubDistances (fun _ => []) (sortShots shots)

/-- The aggregator `computeAndCacheClubStats` in `storage.ts`, as a state
transformer on the `clubStats` table. `now` models `Date.now()`; clubs whose
distance list is empty are not written (the table keeps its previous entry). -/
def computeAndCacheClubStats (now : ℝ) (shots : List Shot)
    (clubStatsTable : Club → Option ClubStats) : Club → Option ClubStats :=
  fun clubName =>
    let distances := clubDistances shots clubName
    if distances.length = 0 then clubStatsTable clubName
    else
      let stats := calculateDistanceStats distances
      some ⟨clubName, stats.avg, stats.median, stats.stdDev, distances.length, now,
        stats.min, stats.max⟩

/-- The per-shot annotation step of `analyzeShotsForHole`: keep the stored
fields and set `distanceToNext` (when a next shot exists), `missDirection`
and `missLength` (thresholds 5 and 10 are the source defaults). -/
def annotateShot (tee green : Coordinate) (shot : Shot) (nextShot : Option Shot) : Shot :=
  let shotCoord : Coordinate := ⟨shot.lat, shot.lng⟩
  let crossTrack := calculateCrossTrackDistance shotCoord tee green
  { shot with
    distanceToNext := nextShot.map (fun n => calculateDistance shotCoord ⟨n.lat, n.lng⟩),
    missDirection := some (classifyMissDirection crossTrack 5),
    missLength := some (classifyMissLength shotCoord tee green 10) }

/-- The indexed loop of `analyzeShotsForHole`: each shot is annotated with
its successor (`shots[i + 1]` when `i < length - 1`). -/
def analyzeShotsLoop (tee green : Coordinate) : List Shot → List Shot
  | [] => []
  | shot :: rest => annotateShot tee green shot rest.head? :: analyzeShotsLoop tee green rest

/-- The shot-analysis pass `analyzeShotsForHole` in `storage.ts` (the stored
shot list of the hole is its input, already ordered by shot number). -/
def analyzeShotsForHole (hole : Hole) (shots : List Shot) : List Shot :=
  analyzeShotsLoop ⟨hole.teeLat, hole.teeLng⟩ ⟨hole.greenLat, hole.greenLng⟩ shots

/-- Spec-side formulation of the miss-length rules, copied from the claimed
precedence: LONG if past the hole distance plus tolerance; else OK when near
the green; else SHORT when short of the hole distance minus tolerance and
away from the green; else OK. -/
def specMissLength (shotEndpoint tee green : Coordinate) (threshold : ℝ) : MissLength :=
  if calculateAlongTrackDistance shotEndpoint tee green >
      calculateDistance tee green + threshold then MissLength.LONG
  else if calculateDistance shotEndpoint green < threshold then MissLength.OK
  else if calculateAlongTrackDistance shotEndpoint tee green <
      calculateDistance tee green - threshold ∧
      calculateDistance shotEndpoint green > threshold then MissLength.SHORT
  else MissLength.OK

/-- Spec-side qualifying sample of one pair of consecutive shots: the pair
yields a sample exactly when both shots are in the same round and hole, the
first shot is not a putt and has a club, and the distance between them is
neither below 10 meters nor above 350 meters; the sample carries the first
shot's club. -/
def specPairSample (shot nextShot : Shot) : List (Club × ℝ) :=
  shot.club.elim []
    (fun c =>
      if shot.roundId = nextShot.roundId ∧ shot.holeNumber = nextShot.holeNumber ∧
          shot.isPutt = false ∧
          10 ≤ calculateDistance ⟨shot.lat, shot.lng⟩ ⟨nextShot.lat, nextShot.lng⟩ ∧
          calculateDistance ⟨shot.lat, shot.lng⟩ ⟨nextShot.lat, nextShot.lng⟩ ≤ 350 then
        [(c, calculateDistance ⟨shot.lat, shot.lng⟩ ⟨nextShot.lat, nextShot.lng⟩)]
      else [])

/-- Spec-side formulation of the qualifying sample list of an ordered shot
history: every pair of consecutive shots contributes its qualifying sample
(if any), in order. -/
def specSamples : List Shot → List (Club × ℝ)
  | shot :: nextShot :: rest => specPairSample shot nextShot ++ specSamples (nextShot :: rest)
  | _ => []

/-- Stale cached profile used to refute the claimed table-state iff. -/
def staleDriverStats : ClubStats := ⟨Club.driver, 150, 150, 0, 3, 0, 140, 160⟩

/-- A `clubStats` table that already holds a (stale) driver profile. -/
def staleTable : Club → Option ClubStats :=
  fun c => if c = Club.driver then some staleDriverStats else none

/-- Default shot used with positional `getD` access in list statements. -/
def dummyShot : Shot :=
  ⟨"", "", 0, 0, 0, 0, none, 0, none, LieType.other, false, false, none, none, none, none⟩

end

section AggregatorLemmas

/-- One step of the pair loop appends to the accumulator exactly the
qualifying sample of the pair (tagged with the first shot's club). -/
theorem stepPair_eq (m : Club → List ℝ) (a b : Shot) (c : Club) :
    stepPair m a b c = m c ++ ((specPairSample a b).filter (fun p => p.1 = c)).map Prod.snd := by
  rcases hc : a.club with _ | cl
  · unfold stepPair specPairSample
    rw [hc]
    simp
  · unfold stepPair specPairSample
    rw [hc]
    simp only [Option.elim_some]
    by_cases hskip : a.roundId ≠ b.roundId ∨ a.holeNumber ≠ b.holeNumber ∨
        a.isPutt = true ∨ (some cl : Option Club) = none
    · rw [if_pos hskip]
      have hnq : ¬(a.roundId = b.roundId ∧ a.holeNumber = b.holeNumber ∧ a.isPutt = false ∧
          10 ≤ calculateDistance ⟨a.lat, a.lng⟩ ⟨b.lat, b.lng⟩ ∧
          calculateDistance ⟨a.lat, a.lng⟩ ⟨b.lat, b.lng⟩ ≤ 350) := by
        rcases hskip with h | h | h | h
        · tauto
        · tauto
        · intro hq
          rw [hq.2.2.1] at h
          exact Bool.false_ne_true h
        · exact absurd h (Option.some_ne_none cl)
      rw [if_neg hnq]
      simp
    · rw [if_neg hskip]
      push_neg at hskip
      obtain ⟨h1, h2, h3, -⟩ := hskip
      by_cases hout : calculateDistance ⟨a.lat, a.lng⟩ ⟨b.lat, b.lng⟩ < 10 ∨
          calculateDistance ⟨a.lat, a.lng⟩ ⟨b.lat, b.lng⟩ > 350
      · rw [if_pos hout]
        have hnq : ¬(a.roundId = b.roundId ∧ a.holeNumber = b.holeNumber ∧ a.isPutt = false ∧
            10 ≤ calculateDistance ⟨a.lat, a.lng⟩ ⟨b.lat, b.lng⟩ ∧
            calculateDistance ⟨a.lat, a.lng⟩ ⟨b.lat, b.lng⟩ ≤ 350) := by
          rcases hout with h | h
          · intro hq
            exact absurd hq.2.2.2.1 (not_le.mpr h)
          · intro hq
            exact absurd hq.2.2.2.2 (not_le.mpr h)
        rw [if_neg hnq]
        simp
      · rw [if_neg hout]
        push_neg at hout
        have hq : a.roundId = b.roundId ∧ a.holeNumber = b.holeNumber ∧ a.isPutt = false ∧
            10 ≤ calculateDistance ⟨a.lat, a.lng⟩ ⟨b.lat, b.lng⟩ ∧
            calculateDistance ⟨a.lat, a.lng⟩ ⟨b.lat, b.lng⟩ ≤ 350 := by
          refine ⟨h1, h2, ?_, hout.1, hout.2⟩
          exact Bool.not_eq_true a.isPutt ▸ h3
        rw [if_pos hq]
        by_cases hcc : cl = c
        · subst hcc
          simp [hc]
        · simp [hc, hcc, Ne.symm hcc]

/-- The pair loop only ever appends samples to the accumulator map: its
result at a club is the starting entry followed by exactly the qualifying
samples of the walked list that carry that club. -/
theorem buildClubDistances_eq (l : List Shot) :
    ∀ m : Club → List ℝ, ∀ c : Club,
      buildClubDistances m l c = m c ++ ((specSamples l).filter (fun p => p.1 = c)).map Prod.snd := by
  induction l with
  | nil =>
    intro m c
    simp [buildClubDistances, specSamples]
  | cons shot rest ih =>
    intro m c
    cases rest with
    | nil => simp [buildClubDistances, specSamples]
    | cons nextShot rest2 =>
      rw [buildClubDistances, ih]
      rw [show specSamples (shot :: nextShot :: rest2) =
        specPairSample shot nextShot ++ specSamples (nextShot :: rest2) from rfl]
      rw [List.filter_append, List.map_append, ← List.append_assoc, stepPair_eq]

end AggregatorLemmas

/-- C1: `classifyMissLength` evaluates its rules in exactly the claimed
precedence: LONG when the along-track distance exceeds the hole distance
plus tolerance; otherwise OK when the ball is within tolerance of the green
(taking priority over SHORT); otherwise SHORT when short of the hole
distance minus tolerance and away from the green; otherwise OK. -/
theorem classifyMissLength_precedence (shotEndpoint tee green : Coordinate) (threshold : ℝ) :
    classifyMissLength shotEndpoint tee green threshold =
      specMissLength shotEndpoint tee green threshold := rfl

/-- C2: the aggregator's distance samples for a club are exactly the
qualifying consecutive pairs of the ordered shot history (same round and
hole, first shot not a putt and with a club, haversine distance within
`[10, 350]` meters), grouped under the first shot's club. -/
theorem clubDistances_eq_specSamples (shots : List Shot) (c : Club) :
    clubDistances shots c =
      ((specSamples (sortShots shots)).filter (fun p => p.1 = c)).map Prod.snd := by
  unfold clubDistances
  rw [buildClubDistances_eq]
  simp

/-- The sample list of an empty history is empty. -/
theorem specSamples_nil : specSamples [] = [] := rfl

/-- C4 counterexample: starting from a table that already holds a driver
profile, a run over an empty shot history (zero qualifying samples for
every club) leaves the driver entry in place, so the table does not contain
an entry for a club if and only if that club has a qualifying sample. -/
theorem clubStats_entry_iff_cex :
    ¬((computeAndCacheClubStats 0 [] staleTable Club.driver).isSome ↔
      ((specSamples (sortShots [])).filter (fun p => p.1 = Club.driver)) ≠ []) := by
  have h2 : specSamples (sortShots ([] : List Shot)) = [] := by
    have hs : sortShots ([] : List Shot) = [] := by simp [sortShots]
    rw [hs, specSamples_nil]
  have h1 : computeAndCacheClubStats 0 [] staleTable Club.driver = some staleDriverStats := by
    simp only [computeAndCacheClubStats, clubDistances, sortShots]
    simp [buildClubDistances, staleTable]
  intro h
  rw [h2] at h
  rw [h1] at h
  simp at h

/-- C4 amended: a run of the aggregator writes a profile for exactly the
clubs with at least one qualifying sample and leaves every other club's
table entry untouched; in particular, starting from an empty table the
table afterwards contains an entry for a club if and only if that club has
a qualifying sample, and a history with no qualifying samples writes
nothing (this is not an error). -/
theorem clubStats_entry_iff_amended (now : ℝ) (shots : List Shot) (c : Club) :
    ((computeAndCacheClubStats now shots (fun _ => none) c).isSome ↔
      ((specSamples (sortShots shots)).filter (fun p => p.1 = c)) ≠ [])
    ∧ ∀ table : Club → Option ClubStats,
        ((specSamples (sortShots shots)).filter (fun p => p.1 = c)) = [] →
          computeAndCacheClubStats now shots table c = table c := by
  have hcd : clubDistances shots c =
      ((specSamples (sortShots shots)).filter (fun p => p.1 = c)).map Prod.snd := by
    unfold clubDistances
    rw [buildClubDistances_eq]
    simp
  constructor
  · simp only [computeAndCacheClubStats]
    rw [hcd]
    by_cases hnil : ((specSamples (sortShots shots)).filter (fun p => p.1 = c)) = []
    · simp [hnil]
    · have hlen : (((specSamples (sortShots shots)).filter (fun p => p.1 = c)).map Prod.snd).length ≠ 0 := by
        simpa [List.length_eq_zero] using hnil
      simp [hlen, hnil]
  · intro table hnil
    simp only [computeAndCacheClubStats]
    rw [hcd, hnil]
    simp

/-- C4 witness: over the empty history, the run leaves the (empty) table
unchanged at the driver entry. -/
theorem clubStats_entry_iff_amended_witness :
    computeAndCacheClubStats 0 [] (fun _ => none) Club.driver = none := by
  refine (clubStats_entry_iff_amended 0 [] Club.driver).2 (fun _ => none) ?_
  have hs : sortShots ([] : List Shot) = [] := by simp [sortShots]
  rw [hs, specSamples_nil]
  rfl

/-- C5: the aggregator is idempotent: a second run over unchanged shot data
(and clock) replaces each club's stored profile with an identical one. -/
theorem computeClubStats_idempotent (now : ℝ) (shots : List Shot)
    (table : Club → Option ClubStats) (c : Club) :
    computeAndCacheClubStats now shots (computeAndCacheClubStats now shots table) c =
      computeAndCacheClubStats now shots table c := by
  simp only [computeAndCacheClubStats]
  by_cases h : (clubDistances shots c).length = 0
  · simp [h]
  · simp [h]

section AnalyzeLemmas

/-- The analysis loop returns one output shot per input shot. -/
theorem analyzeShotsLoop_length (tee green : Coordinate) (l : List Shot) :
    (analyzeShotsLoop tee green l).length = l.length := by
  induction l with
  | nil => rfl
  | cons a rest ih => simp [analyzeShotsLoop, ih]

/-- Positionally, the analysis loop annotates the shot at each index with
its successor in the list (if any). -/
theorem analyzeShotsLoop_getD (tee green : Coordinate) (l : List Shot) :
    ∀ i, i < l.length →
      (analyzeShotsLoop tee green l).getD i dummyShot =
        annotateShot tee green (l.getD i dummyShot) l[i + 1]? := by
  induction l with
  | nil =>
    intro i h
    simp at h
  | cons a rest ih =>
    intro i h
    cases i with
    | zero =>
      show (annotateShot tee green a rest.head? :: analyzeShotsLoop tee green rest).getD 0 dummyShot = _
      rw [List.getElem?_cons_succ]
      simp [List.getD, List.head?_eq_getElem?]
    | succ j =>
      have hj : j < rest.length := by simpa using h
      show (annotateShot tee green a rest.head? :: analyzeShotsLoop tee green rest).getD (j + 1) dummyShot = _
      rw [List.getElem?_cons_succ]
      simp only [List.getD_cons_succ]
      exact ih j hj

end AnalyzeLemmas

/-- C10: `analyzeShotsForHole` returns exactly one output shot per input
shot, in order; each output equals the stored shot with only the derived
fields changed: `distanceToNext` is the distance to the next shot and is
present exactly when a next shot exists, and every shot (the last included)
receives `missDirection` and `missLength` classifications against the
tee→green line (with the source's default thresholds 5 and 10). -/
theorem analyzeShotsForHole_frame (hole : Hole) (shots : List Shot) :
    (analyzeShotsForHole hole shots).length = shots.length
    ∧ (∀ i, i < shots.length →
        (analyzeShotsForHole hole shots).getD i dummyShot =
          { shots.getD i dummyShot with
            distanceToNext := shots[i + 1]?.map (fun n =>
              calculateDistance ⟨(shots.getD i dummyShot).lat, (shots.getD i dummyShot).lng⟩
                ⟨n.lat, n.lng⟩),
            missDirection := some (classifyMissDirection
              (calculateCrossTrackDistance
                ⟨(shots.getD i dummyShot).lat, (shots.getD i dummyShot).lng⟩
                ⟨hole.teeLat, hole.teeLng⟩ ⟨hole.greenLat, hole.greenLng⟩) 5),
            missLength := some (classifyMissLength
              ⟨(shots.getD i dummyShot).lat, (shots.getD i dummyShot).lng⟩
              ⟨hole.teeLat, hole.teeLng⟩ ⟨hole.greenLat, hole.greenLng⟩ 10) })
    ∧ (∀ i, i < shots.length →
        (((analyzeShotsForHole hole shots).getD i dummyShot).distanceToNext.isSome ↔
          i + 1 < shots.length)) := by
  refine ⟨analyzeShotsLoop_length _ _ _, ?_, ?_⟩
  · intro i h
    rw [show analyzeShotsForHole hole shots =
      analyzeShotsLoop ⟨hole.teeLat, hole.teeLng⟩ ⟨hole.greenLat, hole.greenLng⟩ shots from rfl]
    rw [analyzeShotsLoop_getD _ _ _ i h]
    rfl
  · intro i h
    rw [show analyzeShotsForHole hole shots =
      analyzeShotsLoop ⟨hole.teeLat, hole.teeLng⟩ ⟨hole.greenLat, hole.greenLng⟩ shots from rfl]
    rw [analyzeShotsLoop_getD _ _ _ i h]
    show (shots[i + 1]?.map _).isSome ↔ i + 1 < shots.length
    constructor
    · intro hs
      cases hx : shots[i + 1]? with
      | none =>
        rw [hx] at hs
        simp at hs
      | some x => exact (List.getElem?_eq_some.mp hx).1
    · intro hlt
      rw [List.getElem?_eq_getElem hlt]
      rfl

/-- C10 witness: a concrete one-shot hole: the single shot keeps its stored
fields, gets no `distanceToNext`, and is classified on both axes. -/
theorem analyzeShotsForHole_frame_witness :
    ((analyzeShotsForHole ⟨"h", "c", 1, none, 0, 0, 0, 1, none, none⟩ [dummyShot]).getD 0 dummyShot).distanceToNext.isSome ↔ 0 + 1 < 1 := by
  exact (analyzeShotsForHole_frame ⟨"h", "c", 1, none, 0, 0, 0, 1, none, none⟩ [dummyShot]).2.2 0 (by decide)

section StatsLemmas

/-- The first element of a sorted list is a lower bound of its members. -/
theorem sorted_getD_zero_le {l : List ℝ} (hs : l.Sorted (· ≤ ·)) {x : ℝ} (hx : x ∈ l) :
    l.getD 0 0 ≤ x := by
  cases l with
  | nil => simp at hx
  | cons a t =>
    rw [List.getD_cons_zero]
    rcases List.mem_cons.mp hx with h | h
    · exact le_of_eq h.symm
    · exact (List.pairwise_cons.mp hs).1 x h

/-- The first element of a non-empty list is a member. -/
theorem getD_zero_mem {l : List ℝ} (h : l ≠ []) : l.getD 0 0 ∈ l := by
  cases l with
  | nil => exact absurd rfl h
  | cons a t =>
    rw [List.getD_cons_zero]
    exact List.mem_cons_self a t

/-- The last element of a non-empty list is a member. -/
theorem getD_last_mem {l : List ℝ} (h : l ≠ []) : l.getD (l.length - 1) 0 ∈ l := by
  induction l with
  | nil => exact absurd rfl h
  | cons a t ih =>
    cases t with
    | nil => simp [List.getD]
    | cons b t2 =>
      have h2 : (b :: t2) ≠ [] := by simp
      have : (a :: b :: t2).getD ((a :: b :: t2).length - 1) 0 =
          (b :: t2).getD ((b :: t2).length - 1) 0 := rfl
      rw [this]
      exact List.mem_cons_of_mem a (ih h2)

/-- The last element of a sorted list is an upper bound of its members. -/
theorem sorted_le_getD_last {l : List ℝ} (hs : l.Sorted (· ≤ ·)) {x : ℝ} (hx : x ∈ l) :
    x ≤ l.getD (l.length - 1) 0 := by
  induction l generalizing x with
  | nil => simp at hx
  | cons a t ih =>
    cases t with
    | nil =>
      rcases List.mem_cons.mp hx with h | h
      · simp [List.getD, h]
      · simp at h
    | cons b t2 =>
      have hstep : (a :: b :: t2).getD ((a :: b :: t2).length - 1) 0 =
          (b :: t2).getD ((b :: t2).length - 1) 0 := rfl
      rw [hstep]
      have hst : (b :: t2).Sorted (· ≤ ·) := (List.pairwise_cons.mp hs).2
      rcases List.mem_cons.mp hx with h | h
      · subst h
        calc x ≤ b := (List.pairwise_cons.mp hs).1 b (List.mem_cons_self b t2)
        _ ≤ (b :: t2).getD ((b :: t2).length - 1) 0 :=
          ih hst (List.mem_cons_self b t2)
      · exact ih hst h

end StatsLemmas

/-- C6: for a non-empty list, `calculateDistanceStats` returns the mean
(sum over count), the population standard deviation (squared deviations
divided by N), the median as the middle of the ascending sort (average of
the two middle elements for even counts), and the true minimum and maximum
of the list. -/
theorem calculateDistanceStats_spec (ds : List ℝ) (hne : ds ≠ []) :
    (calculateDistanceStats ds).avg = ds.sum / ds.length
    ∧ (calculateDistanceStats ds).stdDev =
        Real.sqrt ((ds.map (fun d => (d - ds.sum / ds.length) ^ 2)).sum / ds.length)
    ∧ (∀ l : List ℝ, ds.Perm l → l.Sorted (· ≤ ·) →
        ((calculateDistanceStats ds).median =
          if ds.length % 2 = 0 then
            (l.getD (ds.length / 2 - 1) 0 + l.getD (ds.length / 2) 0) / 2
          else l.getD (ds.length / 2) 0)
        ∧ (calculateDistanceStats ds).min = l.getD 0 0
        ∧ (calculateDistanceStats ds).max = l.getD (l.length - 1) 0)
    ∧ (calculateDistanceStats ds).min ∈ ds
    ∧ (∀ x ∈ ds, (calculateDistanceStats ds).min ≤ x)
    ∧ (calculateDistanceStats ds).max ∈ ds
    ∧ (∀ x ∈ ds, x ≤ (calculateDistanceStats ds).max) := by
  have hlen : ¬ds.length = 0 := by simpa [List.length_eq_zero] using hne
  have hperm : (ds.mergeSort).Perm ds := List.mergeSort_perm ds _
  have hsort : (ds.mergeSort).Sorted (· ≤ ·) := List.sorted_mergeSort' ds
  have hsne : ds.mergeSort ≠ [] := by
    intro h
    exact hne (List.Perm.eq_nil (h ▸ hperm).symm)
  have hsumf : ds.foldl (fun a b => a + b) 0 = ds.sum := (List.sum_eq_foldl).symm
  have hsumsq : (ds.map (fun d => (d - ds.sum / ds.length) ^ 2)).foldl (fun a b => a + b) 0 =
      (ds.map (fun d => (d - ds.sum / ds.length) ^ 2)).sum := (List.sum_eq_foldl).symm
  simp only [calculateDistanceStats, if_neg hlen]
  refine ⟨by rw [hsumf], by rw [hsumf, hsumsq], ?_, ?_, ?_, ?_, ?_⟩
  · intro l hp hs
    have hls : ds.mergeSort = l := List.eq_of_perm_of_sorted (hperm.trans hp) hsort hs
    rw [hls]
    exact ⟨rfl, rfl, rfl⟩
  · exact hperm.mem_iff.mp (getD_zero_mem hsne)
  · intro x hx
    exact sorted_getD_zero_le hsort (hperm.mem_iff.mpr hx)
  · exact hperm.mem_iff.mp (getD_last_mem hsne)
  · intro x hx
    exact sorted_le_getD_last hsort (hperm.mem_iff.mpr hx)

/-- C6 witness: the statistics of the concrete list `[3, 1, 2]`. -/
theorem calculateDistanceStats_spec_witness :
    (calculateDistanceStats [3, 1, 2]).avg = ([3, 1, 2] : List ℝ).sum / ([3, 1, 2] : List ℝ).length
    ∧ (calculateDistanceStats [3, 1, 2]).min ∈ ([3, 1, 2] : List ℝ)
    ∧ (calculateDistanceStats [3, 1, 2]).max ∈ ([3, 1, 2] : List ℝ) := by
  have h := calculateDistanceStats_spec [3, 1, 2] (by simp)
  exact ⟨h.1, h.2.2.2.1, h.2.2.2.2.2.1⟩


section TrigLemmas

/-- Degrees→radians conversion undoes radians→degrees conversion. -/
theorem toRadians_toDegrees (x : ℝ) : toRadians (toDegrees x) = x := by
  unfold toRadians toDegrees
  field_simp

/-- Degree conversion distributes over subtraction. -/
theorem toRadians_sub (a b : ℝ) : toRadians (a - b) = toRadians a - toRadians b := by
  unfold toRadians
  ring

/-- Auxiliary square-root identity for the `atan2` quadrant lemmas. -/
theorem sqrt_one_add_div_sq (y x : ℝ) (hx : x ≠ 0) :
    Real.sqrt (1 + (y / x) ^ 2) = Real.sqrt (x ^ 2 + y ^ 2) / |x| := by
  rw [show 1 + (y / x) ^ 2 = (x ^ 2 + y ^ 2) / x ^ 2 by field_simp]
  rw [Real.sqrt_div (by positivity) (x ^ 2), Real.sqrt_sq_eq_abs]

/-- Sine of `atan2` is the normalized ordinate. -/
theorem sin_atan2 (y x : ℝ) (h : 0 < x ^ 2 + y ^ 2) :
    Real.sin (atan2 y x) = y / Real.sqrt (x ^ 2 + y ^ 2) := by
  have hs : 0 < Real.sqrt (x ^ 2 + y ^ 2) := Real.sqrt_pos.mpr h
  unfold atan2
  rcases lt_trichotomy x 0 with hx | hx | hx
  · have hne : x ≠ 0 := ne_of_lt hx
    have habs : |x| = -x := abs_of_neg hx
    rw [if_neg (by linarith)]
    by_cases hy : 0 ≤ y
    · rw [if_pos ⟨hx, hy⟩, Real.sin_add_pi, Real.sin_arctan, sqrt_one_add_div_sq y x hne, habs]
      field_simp
      ring
    · rw [if_neg (fun hc => hy hc.2), if_pos ⟨hx, lt_of_not_le hy⟩, Real.sin_sub_pi,
        Real.sin_arctan, sqrt_one_add_div_sq y x hne, habs]
      field_simp
      ring
  · subst hx
    rw [if_neg (lt_irrefl 0), if_neg (fun hc => lt_irrefl 0 hc.1), if_neg (fun hc => lt_irrefl 0 hc.1)]
    rcases lt_trichotomy y 0 with hy | hy | hy
    · rw [if_neg (fun hc => asymm hy hc.2), if_pos ⟨rfl, hy⟩]
      rw [Real.sin_neg, Real.sin_pi_div_two]
      rw [show (0 : ℝ) ^ 2 + y ^ 2 = y ^ 2 by ring, Real.sqrt_sq_eq_abs, abs_of_neg hy]
      rw [div_neg, div_self (ne_of_lt hy)]
    · exfalso
      rw [hy] at h
      norm_num at h
    · rw [if_pos ⟨rfl, hy⟩, Real.sin_pi_div_two]
      rw [show (0 : ℝ) ^ 2 + y ^ 2 = y ^ 2 by ring, Real.sqrt_sq_eq_abs, abs_of_pos hy]
      rw [div_self (ne_of_gt hy)]
  · have hne : x ≠ 0 := ne_of_gt hx
    have habs : |x| = x := abs_of_pos hx
    rw [if_pos hx, Real.sin_arctan, sqrt_one_add_div_sq y x hne, habs]
    field_simp

/-- Cosine of `atan2` is the normalized abscissa. -/
theorem cos_atan2 (y x : ℝ) (h : 0 < x ^ 2 + y ^ 2) :
    Real.cos (atan2 y x) = x / Real.sqrt (x ^ 2 + y ^ 2) := by
  have hs : 0 < Real.sqrt (x ^ 2 + y ^ 2) := Real.sqrt_pos.mpr h
  unfold atan2
  rcases lt_trichotomy x 0 with hx | hx | hx
  · have hne : x ≠ 0 := ne_of_lt hx
    have habs : |x| = -x := abs_of_neg hx
    rw [if_neg (by linarith)]
    by_cases hy : 0 ≤ y
    · rw [if_pos ⟨hx, hy⟩, Real.cos_add_pi, Real.cos_arctan, sqrt_one_add_div_sq y x hne, habs]
      field_simp
    · rw [if_neg (fun hc => hy hc.2), if_pos ⟨hx, lt_of_not_le hy⟩, Real.cos_sub_pi,
        Real.cos_arctan, sqrt_one_add_div_sq y x hne, habs]
      field_simp
  · subst hx
    rw [if_neg (lt_irrefl 0), if_neg (fun hc => lt_irrefl 0 hc.1), if_neg (fun hc => lt_irrefl 0 hc.1)]
    rcases lt_trichotomy y 0 with hy | hy | hy
    · rw [if_neg (fun hc => asymm hy hc.2), if_pos ⟨rfl, hy⟩]
      rw [Real.cos_neg, Real.cos_pi_div_two]
      simp
    · exfalso
      rw [hy] at h
      norm_num at h
    · rw [if_pos ⟨rfl, hy⟩, Real.cos_pi_div_two]
      simp
  · have hne : x ≠ 0 := ne_of_gt hx
    have habs : |x| = x := abs_of_pos hx
    rw [if_pos hx, Real.cos_arctan, sqrt_one_add_div_sq y x hne, habs]
    field_simp

/-- Scaled cosine of `atan2`, valid also in the degenerate origin case. -/
theorem mul_cos_atan2 (y x r : ℝ) (hr : 0 ≤ r) (h : x ^ 2 + y ^ 2 = r ^ 2) :
    r * Real.cos (atan2 y x) = x := by
  rcases eq_or_lt_of_le hr with hr0 | hr0
  · have hx : x = 0 := by nlinarith
    rw [← hr0, hx]
    ring
  · have hpos : 0 < x ^ 2 + y ^ 2 := by rw [h]; positivity
    rw [cos_atan2 y x hpos, h, Real.sqrt_sq hr]
    field_simp

/-- Scaled sine of `atan2`, valid also in the degenerate origin case. -/
theorem mul_sin_atan2 (y x r : ℝ) (hr : 0 ≤ r) (h : x ^ 2 + y ^ 2 = r ^ 2) :
    r * Real.sin (atan2 y x) = y := by
  rcases eq_or_lt_of_le hr with hr0 | hr0
  · have hy : y = 0 := by nlinarith
    rw [← hr0, hy]
    ring
  · have hpos : 0 < x ^ 2 + y ^ 2 := by rw [h]; positivity
    rw [sin_atan2 y x hpos, h, Real.sqrt_sq hr]
    field_simp

/-- On the first quadrant, `atan2` inverts the sine/cosine pair. -/
theorem atan2_sin_cos (w : ℝ) (h0 : 0 ≤ w) (h1 : w < Real.pi / 2) :
    atan2 (Real.sin w) (Real.cos w) = w := by
  have hc : 0 < Real.cos w :=
    Real.cos_pos_of_mem_Ioo ⟨by linarith [Real.pi_pos], h1⟩
  unfold atan2
  rw [if_pos hc, ← Real.tan_eq_sin_div_cos, Real.arctan_tan (by linarith [Real.pi_pos]) h1]

/-- The bearing normalization `(x + 360) % 360` does not change the sine of
the angle read in radians. -/
theorem sin_toRadians_jsMod (z : ℝ) :
    Real.sin (toRadians (jsMod (z + 360) 360)) = Real.sin (toRadians z) := by
  have h1 : jsMod (z + 360) 360 = z - 360 * ((jsTrunc ((z + 360) / 360) : ℝ) - 1) := by
    unfold jsMod
    ring
  have h2 : toRadians (z - 360 * ((jsTrunc ((z + 360) / 360) : ℝ) - 1)) =
      toRadians z + ((1 - jsTrunc ((z + 360) / 360) : ℤ) : ℝ) * (2 * Real.pi) := by
    unfold toRadians
    push_cast
    ring
  rw [h1, h2, Real.sin_add_int_mul_two_pi]

/-- The bearing normalization `(x + 360) % 360` does not change the cosine
of the angle read in radians. -/
theorem cos_toRadians_jsMod (z : ℝ) :
    Real.cos (toRadians (jsMod (z + 360) 360)) = Real.cos (toRadians z) := by
  have h1 : jsMod (z + 360) 360 = z - 360 * ((jsTrunc ((z + 360) / 360) : ℝ) - 1) := by
    unfold jsMod
    ring
  have h2 : toRadians (z - 360 * ((jsTrunc ((z + 360) / 360) : ℝ) - 1)) =
      toRadians z + ((1 - jsTrunc ((z + 360) / 360) : ℤ) : ℝ) * (2 * Real.pi) := by
    unfold toRadians
    push_cast
    ring
  rw [h1, h2, Real.cos_add_int_mul_two_pi]

end TrigLemmas

section DistanceLemmas

/-- Latitudes below 90 degrees convert to radians below a right angle. -/
theorem toRadians_lt_pi_div_two {x : ℝ} (h : x < 90) : toRadians x < Real.pi / 2 := by
  unfold toRadians
  nlinarith [Real.pi_pos]

/-- Latitudes above minus 90 degrees convert to radians above minus a right
angle. -/
theorem neg_pi_div_two_lt_toRadians {x : ℝ} (h : -90 < x) : -(Real.pi / 2) < toRadians x := by
  unfold toRadians
  nlinarith [Real.pi_pos]

/-- The haversine distance of a point to itself is zero. -/
theorem calculateDistance_self (p : Coordinate) : calculateDistance p p = 0 := by
  simp only [calculateDistance, sub_self]
  rw [show toRadians 0 = 0 by unfold toRadians; ring]
  norm_num
  unfold atan2
  rw [if_pos (by norm_num : (0 : ℝ) < 1)]
  simp [Real.arctan_zero]

end DistanceLemmas

/-- C7 amended: on coordinates with latitude strictly between the poles and
longitude in `(-180, 180]`, the haversine distance is zero exactly when the
two coordinate records are equal (at a pole or across the antimeridian
aliasing ±180, distinct records can denote the same physical point and get
distance zero). -/
theorem calculateDistance_zero_iff_amended (p q : Coordinate)
    (hplat1 : -90 < p.lat) (hplat2 : p.lat < 90)
    (hqlat1 : -90 < q.lat) (hqlat2 : q.lat < 90)
    (hplng1 : -180 < p.lng) (hplng2 : p.lng ≤ 180)
    (hqlng1 : -180 < q.lng) (hqlng2 : q.lng ≤ 180) :
    (calculateDistance p q = 0 ↔ p = q) := by
  constructor
  · intro h
    have hc1 : 0 < Real.cos (toRadians p.lat) :=
      Real.cos_pos_of_mem_Ioo ⟨neg_pi_div_two_lt_toRadians hplat1, toRadians_lt_pi_div_two hplat2⟩
    have hc2 : 0 < Real.cos (toRadians q.lat) :=
      Real.cos_pos_of_mem_Ioo ⟨neg_pi_div_two_lt_toRadians hqlat1, toRadians_lt_pi_div_two hqlat2⟩
    simp only [calculateDistance] at h
    set A := Real.sin (toRadians (q.lat - p.lat) / 2) with hA
    set T := Real.sin (toRadians (q.lng - p.lng) / 2) with hT
    set a := A * A + Real.cos (toRadians p.lat) * Real.cos (toRadians q.lat) * T * T with ha
    have ha0 : 0 ≤ a := by
      rw [ha]
      nlinarith [mul_self_nonneg A, mul_self_nonneg T, mul_pos hc1 hc2]
    have hatan : atan2 (Real.sqrt a) (Real.sqrt (1 - a)) = 0 := by
      have hR : (EARTH_RADIUS_METERS : ℝ) ≠ 0 := by unfold EARTH_RADIUS_METERS; norm_num
      rcases mul_eq_zero.mp h with hbad | hok
      · exact absurd hbad hR
      · linarith [mul_eq_zero.mp hok |>.resolve_left (by norm_num : (2 : ℝ) ≠ 0)]
    have haz : a = 0 := by
      by_cases hlt : a < 1
      · have hx : 0 < Real.sqrt (1 - a) := Real.sqrt_pos.mpr (by linarith)
        unfold atan2 at hatan
        rw [if_pos hx] at hatan
        have hdiv : Real.sqrt a / Real.sqrt (1 - a) = 0 := by
          rwa [Real.arctan_eq_zero_iff] at hatan
        have hsa : Real.sqrt a = 0 :=
          (div_eq_zero_iff.mp hdiv).resolve_right (ne_of_gt hx)
        exact (Real.sqrt_eq_zero ha0).mp hsa
      · exfalso
        push_neg at hlt
        have hx0 : Real.sqrt (1 - a) = 0 := Real.sqrt_eq_zero'.mpr (by linarith)
        have hy : 0 < Real.sqrt a := Real.sqrt_pos.mpr (by linarith)
        unfold atan2 at hatan
        rw [hx0] at hatan
        rw [if_neg (lt_irrefl 0), if_neg (fun hc => lt_irrefl 0 hc.1),
          if_neg (fun hc => lt_irrefl 0 hc.1), if_pos ⟨rfl, hy⟩] at hatan
        have := Real.pi_pos
        linarith
    have hAz : A = 0 := by
      have hAA : A * A = 0 := by
        nlinarith [mul_self_nonneg A, mul_self_nonneg T, mul_pos hc1 hc2]
      exact mul_self_eq_zero.mp hAA
    have hTz : T = 0 := by
      have hTT : T * T = 0 := by
        nlinarith [mul_self_nonneg A, mul_self_nonneg T, mul_pos hc1 hc2]
      exact mul_self_eq_zero.mp hTT
    have hlat : q.lat = p.lat := by
      have harg1 : -Real.pi < toRadians (q.lat - p.lat) / 2 := by
        unfold toRadians
        nlinarith [Real.pi_pos]
      have harg2 : toRadians (q.lat - p.lat) / 2 < Real.pi := by
        unfold toRadians
        nlinarith [Real.pi_pos]
      have := (Real.sin_eq_zero_iff_of_lt_of_lt harg1 harg2).mp (hA ▸ hAz)
      unfold toRadians at this
      have h0 : (q.lat - p.lat) * Real.pi = 0 := by linarith
      rcases mul_eq_zero.mp h0 with h1 | h1
      · linarith
      · exact absurd h1 Real.pi_ne_zero
    have hlng : q.lng = p.lng := by
      have harg1 : -Real.pi < toRadians (q.lng - p.lng) / 2 := by
        unfold toRadians
        nlinarith [Real.pi_pos]
      have harg2 : toRadians (q.lng - p.lng) / 2 < Real.pi := by
        unfold toRadians
        nlinarith [Real.pi_pos]
      have := (Real.sin_eq_zero_iff_of_lt_of_lt harg1 harg2).mp (hT ▸ hTz)
      unfold toRadians at this
      have h0 : (q.lng - p.lng) * Real.pi = 0 := by linarith
      rcases mul_eq_zero.mp h0 with h1 | h1
      · linarith
      · exact absurd h1 Real.pi_ne_zero
    ext
    · exact hlat.symm
    · exact hlng.symm
  · rintro rfl
    exact calculateDistance_self p

/-- C7 counterexample: the valid coordinates `(0, -180)` and `(0, 180)` are
distinct records yet have haversine distance zero (they alias the same
antimeridian point), so distance zero does not imply coordinate equality. -/
theorem calculateDistance_zero_iff_cex :
    calculateDistance ⟨0, -180⟩ ⟨0, 180⟩ = 0 ∧ (⟨0, -180⟩ : Coordinate) ≠ ⟨0, 180⟩ := by
  constructor
  · simp only [calculateDistance]
    norm_num
    rw [show toRadians 0 = 0 by unfold toRadians; ring]
    rw [show toRadians 360 / 2 = Real.pi by unfold toRadians; ring]
    norm_num [Real.sin_pi]
    unfold atan2
    rw [if_pos (by norm_num : (0 : ℝ) < 1)]
    simp [Real.arctan_zero]
  · intro h
    have h2 := congrArg Coordinate.lng h
    norm_num at h2

/-- C7 witness: at the origin the amended equivalence holds concretely. -/
theorem calculateDistance_zero_iff_amended_witness :
    calculateDistance ⟨0, 0⟩ ⟨0, 0⟩ = 0 ↔ (⟨0, 0⟩ : Coordinate) = ⟨0, 0⟩ := by
  exact calculateDistance_zero_iff_amended ⟨0, 0⟩ ⟨0, 0⟩ (by norm_num) (by norm_num)
    (by norm_num) (by norm_num) (by norm_num) (by norm_num) (by norm_num) (by norm_num)

section DestinationLemmas

/-- Half-angle square of the sine. -/
theorem sin_sq_half_eq (x : ℝ) : Real.sin (x / 2) ^ 2 = (1 - Real.cos x) / 2 := by
  have h := Real.cos_two_mul (x / 2)
  rw [show 2 * (x / 2) = x by ring] at h
  have h2 := Real.sin_sq_add_cos_sq (x / 2)
  linarith

/-- Half-angle square of the cosine. -/
theorem cos_sq_half_eq (x : ℝ) : Real.cos (x / 2) ^ 2 = (1 + Real.cos x) / 2 := by
  have h := Real.cos_two_mul (x / 2)
  rw [show 2 * (x / 2) = x by ring] at h
  linarith

/-- The projected point's `arcsin` argument is within the sine range. -/
theorem dest_t_sq_le_one (φ1 δ β : ℝ) :
    (Real.sin φ1 * Real.cos δ + Real.cos φ1 * Real.sin δ * Real.cos β) ^ 2 ≤ 1 := by
  have h1 := Real.sin_sq_add_cos_sq φ1
  have hδ := Real.sin_sq_add_cos_sq δ
  have hβ := Real.sin_sq_add_cos_sq β
  have key : 1 - (Real.sin φ1 * Real.cos δ + Real.cos φ1 * Real.sin δ * Real.cos β) ^ 2 =
      (Real.cos φ1 * Real.sin β) ^ 2 +
      (Real.sin φ1 * Real.sin δ - Real.cos φ1 * Real.cos δ * Real.cos β) ^ 2 := by
    linear_combination (-1 : ℝ) * h1 - Real.cos φ1 ^ 2 * hβ -
      (Real.sin φ1 ^ 2 + Real.cos φ1 ^ 2 * Real.cos β ^ 2) * hδ
  nlinarith [sq_nonneg (Real.cos φ1 * Real.sin β),
    sq_nonneg (Real.sin φ1 * Real.sin δ - Real.cos φ1 * Real.cos δ * Real.cos β), key]

end DestinationLemmas

/-- Round trip of projection and distance: the haversine distance from an
origin to the `getDestination` projection recovers the projected distance
exactly (origin latitude in range, distance below half the circumference). -/
theorem dest_dist (o : Coordinate) (θ d : ℝ)
    (hlat1 : -90 ≤ o.lat) (hlat2 : o.lat ≤ 90) (hd0 : 0 ≤ d) (hd1 : d < 20000000) :
    calculateDistance o (getDestination o θ d) = d := by
  have hR : (0 : ℝ) < EARTH_RADIUS_METERS := by unfold EARTH_RADIUS_METERS; norm_num
  have hδ0 : 0 ≤ d / EARTH_RADIUS_METERS := div_nonneg hd0 (le_of_lt hR)
  have hδπ : d / EARTH_RADIUS_METERS < Real.pi := by
    unfold EARTH_RADIUS_METERS
    rw [div_lt_iff₀ (by norm_num : (0 : ℝ) < 6371000)]
    nlinarith [Real.pi_gt_d6]
  have ht2 : (Real.sin (toRadians o.lat) * Real.cos (d / EARTH_RADIUS_METERS) + Real.cos (toRadians o.lat) * Real.sin (d / EARTH_RADIUS_METERS) * Real.cos (toRadians θ)) ^ 2 ≤ 1 :=
    dest_t_sq_le_one (toRadians o.lat) (d / EARTH_RADIUS_METERS) (toRadians θ)
  have h1t : (0 : ℝ) ≤ 1 - (Real.sin (toRadians o.lat) * Real.cos (d / EARTH_RADIUS_METERS) + Real.cos (toRadians o.lat) * Real.sin (d / EARTH_RADIUS_METERS) * Real.cos (toRadians θ)) ^ 2 := by linarith
  have ht1 : -1 ≤ (Real.sin (toRadians o.lat) * Real.cos (d / EARTH_RADIUS_METERS) + Real.cos (toRadians o.lat) * Real.sin (d / EARTH_RADIUS_METERS) * Real.cos (toRadians θ)) := by nlinarith [sq_nonneg ((Real.sin (toRadians o.lat) * Real.cos (d / EARTH_RADIUS_METERS) + Real.cos (toRadians o.lat) * Real.sin (d / EARTH_RADIUS_METERS) * Real.cos (toRadians θ)) + 1)]
  have ht1' : (Real.sin (toRadians o.lat) * Real.cos (d / EARTH_RADIUS_METERS) + Real.cos (toRadians o.lat) * Real.sin (d / EARTH_RADIUS_METERS) * Real.cos (toRadians θ)) ≤ 1 := by nlinarith [sq_nonneg ((Real.sin (toRadians o.lat) * Real.cos (d / EARTH_RADIUS_METERS) + Real.cos (toRadians o.lat) * Real.sin (d / EARTH_RADIUS_METERS) * Real.cos (toRadians θ)) - 1)]
  have hsin2 : Real.sin (Real.arcsin (Real.sin (toRadians o.lat) * Real.cos (d / EARTH_RADIUS_METERS) + Real.cos (toRadians o.lat) * Real.sin (d / EARTH_RADIUS_METERS) * Real.cos (toRadians θ))) = (Real.sin (toRadians o.lat) * Real.cos (d / EARTH_RADIUS_METERS) + Real.cos (toRadians o.lat) * Real.sin (d / EARTH_RADIUS_METERS) * Real.cos (toRadians θ)) := Real.sin_arcsin ht1 ht1'
  have hc2sq : Real.cos (Real.arcsin (Real.sin (toRadians o.lat) * Real.cos (d / EARTH_RADIUS_METERS) + Real.cos (toRadians o.lat) * Real.sin (d / EARTH_RADIUS_METERS) * Real.cos (toRadians θ))) ^ 2 = 1 - (Real.sin (toRadians o.lat) * Real.cos (d / EARTH_RADIUS_METERS) + Real.cos (toRadians o.lat) * Real.sin (d / EARTH_RADIUS_METERS) * Real.cos (toRadians θ)) ^ 2 := by
    rw [Real.cos_arcsin]
    exact Real.sq_sqrt h1t
  have hc2_0 : 0 ≤ Real.cos (Real.arcsin (Real.sin (toRadians o.lat) * Real.cos (d / EARTH_RADIUS_METERS) + Real.cos (toRadians o.lat) * Real.sin (d / EARTH_RADIUS_METERS) * Real.cos (toRadians θ))) := Real.cos_arcsin_nonneg (Real.sin (toRadians o.lat) * Real.cos (d / EARTH_RADIUS_METERS) + Real.cos (toRadians o.lat) * Real.sin (d / EARTH_RADIUS_METERS) * Real.cos (toRadians θ))
  have hc1_0 : 0 ≤ Real.cos (toRadians o.lat) := by
    apply Real.cos_nonneg_of_mem_Icc
    rw [Set.mem_Icc]
    constructor
    · unfold toRadians
      nlinarith [Real.pi_pos]
    · unfold toRadians
      nlinarith [Real.pi_pos]
  have hpy1 := Real.sin_sq_add_cos_sq (toRadians o.lat)
  have hpyδ := Real.sin_sq_add_cos_sq (d / EARTH_RADIUS_METERS)
  have hpyβ := Real.sin_sq_add_cos_sq (toRadians θ)
  have hAB : (Real.cos (d / EARTH_RADIUS_METERS) - Real.sin (toRadians o.lat) * (Real.sin (toRadians o.lat) * Real.cos (d / EARTH_RADIUS_METERS) + Real.cos (toRadians o.lat) * Real.sin (d / EARTH_RADIUS_METERS) * Real.cos (toRadians θ))) ^ 2 + (Real.sin (toRadians θ) * Real.sin (d / EARTH_RADIUS_METERS) * Real.cos (toRadians o.lat)) ^ 2 =
      (Real.cos (toRadians o.lat) * Real.cos (Real.arcsin (Real.sin (toRadians o.lat) * Real.cos (d / EARTH_RADIUS_METERS) + Real.cos (toRadians o.lat) * Real.sin (d / EARTH_RADIUS_METERS) * Real.cos (toRadians θ)))) ^ 2 := by
    linear_combination ((Real.sin (toRadians o.lat) * Real.cos (d / EARTH_RADIUS_METERS) + Real.cos (toRadians o.lat) * Real.sin (d / EARTH_RADIUS_METERS) * Real.cos (toRadians θ)) ^ 2 - Real.cos (d / EARTH_RADIUS_METERS) ^ 2) * hpy1 +
      Real.cos (toRadians o.lat) ^ 2 * Real.sin (d / EARTH_RADIUS_METERS) ^ 2 * hpyβ +
      Real.cos (toRadians o.lat) ^ 2 * hpyδ -
      Real.cos (toRadians o.lat) ^ 2 * hc2sq
  have hBcos : Real.cos (toRadians o.lat) * Real.cos (Real.arcsin (Real.sin (toRadians o.lat) * Real.cos (d / EARTH_RADIUS_METERS) + Real.cos (toRadians o.lat) * Real.sin (d / EARTH_RADIUS_METERS) * Real.cos (toRadians θ))) *
      Real.cos (atan2 (Real.sin (toRadians θ) * Real.sin (d / EARTH_RADIUS_METERS) * Real.cos (toRadians o.lat)) (Real.cos (d / EARTH_RADIUS_METERS) - Real.sin (toRadians o.lat) * (Real.sin (toRadians o.lat) * Real.cos (d / EARTH_RADIUS_METERS) + Real.cos (toRadians o.lat) * Real.sin (d / EARTH_RADIUS_METERS) * Real.cos (toRadians θ)))) = (Real.cos (d / EARTH_RADIUS_METERS) - Real.sin (toRadians o.lat) * (Real.sin (toRadians o.lat) * Real.cos (d / EARTH_RADIUS_METERS) + Real.cos (toRadians o.lat) * Real.sin (d / EARTH_RADIUS_METERS) * Real.cos (toRadians θ))) :=
    mul_cos_atan2 (Real.sin (toRadians θ) * Real.sin (d / EARTH_RADIUS_METERS) * Real.cos (toRadians o.lat)) (Real.cos (d / EARTH_RADIUS_METERS) - Real.sin (toRadians o.lat) * (Real.sin (toRadians o.lat) * Real.cos (d / EARTH_RADIUS_METERS) + Real.cos (toRadians o.lat) * Real.sin (d / EARTH_RADIUS_METERS) * Real.cos (toRadians θ))) _ (mul_nonneg hc1_0 hc2_0) hAB
  have hcosdiff : Real.cos (Real.arcsin (Real.sin (toRadians o.lat) * Real.cos (d / EARTH_RADIUS_METERS) + Real.cos (toRadians o.lat) * Real.sin (d / EARTH_RADIUS_METERS) * Real.cos (toRadians θ)) - toRadians o.lat) =
      Real.cos (Real.arcsin (Real.sin (toRadians o.lat) * Real.cos (d / EARTH_RADIUS_METERS) + Real.cos (toRadians o.lat) * Real.sin (d / EARTH_RADIUS_METERS) * Real.cos (toRadians θ))) * Real.cos (toRadians o.lat) + (Real.sin (toRadians o.lat) * Real.cos (d / EARTH_RADIUS_METERS) + Real.cos (toRadians o.lat) * Real.sin (d / EARTH_RADIUS_METERS) * Real.cos (toRadians θ)) * Real.sin (toRadians o.lat) := by
    rw [Real.cos_sub, hsin2]
  have hPlat : (getDestination o θ d).lat = toDegrees (Real.arcsin (Real.sin (toRadians o.lat) * Real.cos (d / EARTH_RADIUS_METERS) + Real.cos (toRadians o.lat) * Real.sin (d / EARTH_RADIUS_METERS) * Real.cos (toRadians θ))) := rfl
  have hPlng : (getDestination o θ d).lng = toDegrees (toRadians o.lng +
      atan2 (Real.sin (toRadians θ) * Real.sin (d / EARTH_RADIUS_METERS) * Real.cos (toRadians o.lat)) (Real.cos (d / EARTH_RADIUS_METERS) - Real.sin (toRadians o.lat) *
        Real.sin (Real.arcsin (Real.sin (toRadians o.lat) * Real.cos (d / EARTH_RADIUS_METERS) + Real.cos (toRadians o.lat) * Real.sin (d / EARTH_RADIUS_METERS) * Real.cos (toRadians θ))))) := rfl
  simp only [calculateDistance, hPlat, hPlng, hsin2, toRadians_sub, toRadians_toDegrees]
  rw [show toRadians o.lng + (atan2 (Real.sin (toRadians θ) * Real.sin (d / EARTH_RADIUS_METERS) * Real.cos (toRadians o.lat)) (Real.cos (d / EARTH_RADIUS_METERS) - Real.sin (toRadians o.lat) * (Real.sin (toRadians o.lat) * Real.cos (d / EARTH_RADIUS_METERS) + Real.cos (toRadians o.lat) * Real.sin (d / EARTH_RADIUS_METERS) * Real.cos (toRadians θ)))) - toRadians o.lng = (atan2 (Real.sin (toRadians θ) * Real.sin (d / EARTH_RADIUS_METERS) * Real.cos (toRadians o.lat)) (Real.cos (d / EARTH_RADIUS_METERS) - Real.sin (toRadians o.lat) * (Real.sin (toRadians o.lat) * Real.cos (d / EARTH_RADIUS_METERS) + Real.cos (toRadians o.lat) * Real.sin (d / EARTH_RADIUS_METERS) * Real.cos (toRadians θ)))) by ring]
  have haval : Real.sin ((Real.arcsin (Real.sin (toRadians o.lat) * Real.cos (d / EARTH_RADIUS_METERS) + Real.cos (toRadians o.lat) * Real.sin (d / EARTH_RADIUS_METERS) * Real.cos (toRadians θ)) - toRadians o.lat) / 2) * Real.sin ((Real.arcsin (Real.sin (toRadians o.lat) * Real.cos (d / EARTH_RADIUS_METERS) + Real.cos (toRadians o.lat) * Real.sin (d / EARTH_RADIUS_METERS) * Real.cos (toRadians θ)) - toRadians o.lat) / 2) +
      Real.cos (toRadians o.lat) * Real.cos (Real.arcsin (Real.sin (toRadians o.lat) * Real.cos (d / EARTH_RADIUS_METERS) + Real.cos (toRadians o.lat) * Real.sin (d / EARTH_RADIUS_METERS) * Real.cos (toRadians θ))) *
        Real.sin ((atan2 (Real.sin (toRadians θ) * Real.sin (d / EARTH_RADIUS_METERS) * Real.cos (toRadians o.lat)) (Real.cos (d / EARTH_RADIUS_METERS) - Real.sin (toRadians o.lat) * (Real.sin (toRadians o.lat) * Real.cos (d / EARTH_RADIUS_METERS) + Real.cos (toRadians o.lat) * Real.sin (d / EARTH_RADIUS_METERS) * Real.cos (toRadians θ)))) / 2) * Real.sin ((atan2 (Real.sin (toRadians θ) * Real.sin (d / EARTH_RADIUS_METERS) * Real.cos (toRadians o.lat)) (Real.cos (d / EARTH_RADIUS_METERS) - Real.sin (toRadians o.lat) * (Real.sin (toRadians o.lat) * Real.cos (d / EARTH_RADIUS_METERS) + Real.cos (toRadians o.lat) * Real.sin (d / EARTH_RADIUS_METERS) * Real.cos (toRadians θ)))) / 2) =
      (1 - Real.cos (d / EARTH_RADIUS_METERS)) / 2 := by
    linear_combination (sin_sq_half_eq (Real.arcsin (Real.sin (toRadians o.lat) * Real.cos (d / EARTH_RADIUS_METERS) + Real.cos (toRadians o.lat) * Real.sin (d / EARTH_RADIUS_METERS) * Real.cos (toRadians θ)) - toRadians o.lat)) +
      (Real.cos (toRadians o.lat) * Real.cos (Real.arcsin (Real.sin (toRadians o.lat) * Real.cos (d / EARTH_RADIUS_METERS) + Real.cos (toRadians o.lat) * Real.sin (d / EARTH_RADIUS_METERS) * Real.cos (toRadians θ)))) * (sin_sq_half_eq (atan2 (Real.sin (toRadians θ) * Real.sin (d / EARTH_RADIUS_METERS) * Real.cos (toRadians o.lat)) (Real.cos (d / EARTH_RADIUS_METERS) - Real.sin (toRadians o.lat) * (Real.sin (toRadians o.lat) * Real.cos (d / EARTH_RADIUS_METERS) + Real.cos (toRadians o.lat) * Real.sin (d / EARTH_RADIUS_METERS) * Real.cos (toRadians θ))))) -
      (1 / 2 : ℝ) * hcosdiff - (1 / 2 : ℝ) * hBcos
  rw [haval]
  rw [show (1 : ℝ) - (1 - Real.cos (d / EARTH_RADIUS_METERS)) / 2 =
    (1 + Real.cos (d / EARTH_RADIUS_METERS)) / 2 by ring]
  have hs1 : Real.sqrt ((1 - Real.cos (d / EARTH_RADIUS_METERS)) / 2) =
      Real.sin (d / EARTH_RADIUS_METERS / 2) := by
    rw [← sin_sq_half_eq (d / EARTH_RADIUS_METERS)]
    exact Real.sqrt_sq (Real.sin_nonneg_of_nonneg_of_le_pi (by linarith) (by linarith))
  have hs2 : Real.sqrt ((1 + Real.cos (d / EARTH_RADIUS_METERS)) / 2) =
      Real.cos (d / EARTH_RADIUS_METERS / 2) := by
    rw [← cos_sq_half_eq (d / EARTH_RADIUS_METERS)]
    exact Real.sqrt_sq (le_of_lt (Real.cos_pos_of_mem_Ioo
      ⟨by linarith [Real.pi_pos], by linarith⟩))
  rw [hs1, hs2, atan2_sin_cos (d / EARTH_RADIUS_METERS / 2) (by linarith) (by linarith)]
  field_simp
  ring

theorem dest_bearing (o : Coordinate) (θ d : ℝ)
    (hlat1 : -90 < o.lat) (hlat2 : o.lat < 90) (hd0 : 0 < d) (hd1 : d < 20000000) :
    Real.sin (toRadians (calculateBearing o (getDestination o θ d))) = Real.sin (toRadians θ)
    ∧ Real.cos (toRadians (calculateBearing o (getDestination o θ d))) = Real.cos (toRadians θ) := by
  have hR : (0 : ℝ) < EARTH_RADIUS_METERS := by unfold EARTH_RADIUS_METERS; norm_num
  have hδ0 : 0 < d / EARTH_RADIUS_METERS := div_pos hd0 hR
  have hδπ : d / EARTH_RADIUS_METERS < Real.pi := by
    unfold EARTH_RADIUS_METERS
    rw [div_lt_iff₀ (by norm_num : (0 : ℝ) < 6371000)]
    nlinarith [Real.pi_gt_d6]
  have ht2 : (Real.sin (toRadians o.lat) * Real.cos (d / EARTH_RADIUS_METERS) + Real.cos (toRadians o.lat) * Real.sin (d / EARTH_RADIUS_METERS) * Real.cos (toRadians θ)) ^ 2 ≤ 1 :=
    dest_t_sq_le_one (toRadians o.lat) (d / EARTH_RADIUS_METERS) (toRadians θ)
  have h1t : (0 : ℝ) ≤ 1 - (Real.sin (toRadians o.lat) * Real.cos (d / EARTH_RADIUS_METERS) + Real.cos (toRadians o.lat) * Real.sin (d / EARTH_RADIUS_METERS) * Real.cos (toRadians θ)) ^ 2 := by linarith
  have ht1 : -1 ≤ (Real.sin (toRadians o.lat) * Real.cos (d / EARTH_RADIUS_METERS) + Real.cos (toRadians o.lat) * Real.sin (d / EARTH_RADIUS_METERS) * Real.cos (toRadians θ)) := by nlinarith [sq_nonneg ((Real.sin (toRadians o.lat) * Real.cos (d / EARTH_RADIUS_METERS) + Real.cos (toRadians o.lat) * Real.sin (d / EARTH_RADIUS_METERS) * Real.cos (toRadians θ)) + 1)]
  have ht1' : (Real.sin (toRadians o.lat) * Real.cos (d / EARTH_RADIUS_METERS) + Real.cos (toRadians o.lat) * Real.sin (d / EARTH_RADIUS_METERS) * Real.cos (toRadians θ)) ≤ 1 := by nlinarith [sq_nonneg ((Real.sin (toRadians o.lat) * Real.cos (d / EARTH_RADIUS_METERS) + Real.cos (toRadians o.lat) * Real.sin (d / EARTH_RADIUS_METERS) * Real.cos (toRadians θ)) - 1)]
  have hsin2 : Real.sin (Real.arcsin (Real.sin (toRadians o.lat) * Real.cos (d / EARTH_RADIUS_METERS) + Real.cos (toRadians o.lat) * Real.sin (d / EARTH_RADIUS_METERS) * Real.cos (toRadians θ))) = (Real.sin (toRadians o.lat) * Real.cos (d / EARTH_RADIUS_METERS) + Real.cos (toRadians o.lat) * Real.sin (d / EARTH_RADIUS_METERS) * Real.cos (toRadians θ)) := Real.sin_arcsin ht1 ht1'
  have hc2sq : Real.cos (Real.arcsin (Real.sin (toRadians o.lat) * Real.cos (d / EARTH_RADIUS_METERS) + Real.cos (toRadians o.lat) * Real.sin (d / EARTH_RADIUS_METERS) * Real.cos (toRadians θ))) ^ 2 = 1 - (Real.sin (toRadians o.lat) * Real.cos (d / EARTH_RADIUS_METERS) + Real.cos (toRadians o.lat) * Real.sin (d / EARTH_RADIUS_METERS) * Real.cos (toRadians θ)) ^ 2 := by
    rw [Real.cos_arcsin]
    exact Real.sq_sqrt h1t
  have hc2_0 : 0 ≤ Real.cos (Real.arcsin (Real.sin (toRadians o.lat) * Real.cos (d / EARTH_RADIUS_METERS) + Real.cos (toRadians o.lat) * Real.sin (d / EARTH_RADIUS_METERS) * Real.cos (toRadians θ))) := Real.cos_arcsin_nonneg (Real.sin (toRadians o.lat) * Real.cos (d / EARTH_RADIUS_METERS) + Real.cos (toRadians o.lat) * Real.sin (d / EARTH_RADIUS_METERS) * Real.cos (toRadians θ))
  have hc1pos : 0 < Real.cos (toRadians o.lat) :=
    Real.cos_pos_of_mem_Ioo ⟨neg_pi_div_two_lt_toRadians hlat1, toRadians_lt_pi_div_two hlat2⟩
  have hsδpos : 0 < Real.sin (d / EARTH_RADIUS_METERS) :=
    Real.sin_pos_of_pos_of_lt_pi hδ0 hδπ
  have hpy1 := Real.sin_sq_add_cos_sq (toRadians o.lat)
  have hpyδ := Real.sin_sq_add_cos_sq (d / EARTH_RADIUS_METERS)
  have hpyβ := Real.sin_sq_add_cos_sq (toRadians θ)
  have hPlat : (getDestination o θ d).lat = toDegrees (Real.arcsin (Real.sin (toRadians o.lat) * Real.cos (d / EARTH_RADIUS_METERS) + Real.cos (toRadians o.lat) * Real.sin (d / EARTH_RADIUS_METERS) * Real.cos (toRadians θ))) := rfl
  have hPlng : (getDestination o θ d).lng = toDegrees (toRadians o.lng +
      atan2 (Real.sin (toRadians θ) * Real.sin (d / EARTH_RADIUS_METERS) * Real.cos (toRadians o.lat)) (Real.cos (d / EARTH_RADIUS_METERS) - Real.sin (toRadians o.lat) *
        Real.sin (Real.arcsin (Real.sin (toRadians o.lat) * Real.cos (d / EARTH_RADIUS_METERS) + Real.cos (toRadians o.lat) * Real.sin (d / EARTH_RADIUS_METERS) * Real.cos (toRadians θ))))) := rfl
  simp only [calculateBearing, hPlat, hPlng, hsin2, toRadians_sub, toRadians_toDegrees,
    sin_toRadians_jsMod, cos_toRadians_jsMod]
  rw [show toRadians o.lng + (atan2 (Real.sin (toRadians θ) * Real.sin (d / EARTH_RADIUS_METERS) * Real.cos (toRadians o.lat)) (Real.cos (d / EARTH_RADIUS_METERS) - Real.sin (toRadians o.lat) * (Real.sin (toRadians o.lat) * Real.cos (d / EARTH_RADIUS_METERS) + Real.cos (toRadians o.lat) * Real.sin (d / EARTH_RADIUS_METERS) * Real.cos (toRadians θ)))) - toRadians o.lng = (atan2 (Real.sin (toRadians θ) * Real.sin (d / EARTH_RADIUS_METERS) * Real.cos (toRadians o.lat)) (Real.cos (d / EARTH_RADIUS_METERS) - Real.sin (toRadians o.lat) * (Real.sin (toRadians o.lat) * Real.cos (d / EARTH_RADIUS_METERS) + Real.cos (toRadians o.lat) * Real.sin (d / EARTH_RADIUS_METERS) * Real.cos (toRadians θ)))) by ring]
  have hAB : (Real.cos (d / EARTH_RADIUS_METERS) - Real.sin (toRadians o.lat) * (Real.sin (toRadians o.lat) * Real.cos (d / EARTH_RADIUS_METERS) + Real.cos (toRadians o.lat) * Real.sin (d / EARTH_RADIUS_METERS) * Real.cos (toRadians θ))) ^ 2 + (Real.sin (toRadians θ) * Real.sin (d / EARTH_RADIUS_METERS) * Real.cos (toRadians o.lat)) ^ 2 =
      (Real.cos (toRadians o.lat) * Real.cos (Real.arcsin (Real.sin (toRadians o.lat) * Real.cos (d / EARTH_RADIUS_METERS) + Real.cos (toRadians o.lat) * Real.sin (d / EARTH_RADIUS_METERS) * Real.cos (toRadians θ)))) ^ 2 := by
    linear_combination ((Real.sin (toRadians o.lat) * Real.cos (d / EARTH_RADIUS_METERS) + Real.cos (toRadians o.lat) * Real.sin (d / EARTH_RADIUS_METERS) * Real.cos (toRadians θ)) ^ 2 - Real.cos (d / EARTH_RADIUS_METERS) ^ 2) * hpy1 +
      Real.cos (toRadians o.lat) ^ 2 * Real.sin (d / EARTH_RADIUS_METERS) ^ 2 * hpyβ +
      Real.cos (toRadians o.lat) ^ 2 * hpyδ -
      Real.cos (toRadians o.lat) ^ 2 * hc2sq
  have hnn : 0 ≤ Real.cos (toRadians o.lat) * Real.cos (Real.arcsin (Real.sin (toRadians o.lat) * Real.cos (d / EARTH_RADIUS_METERS) + Real.cos (toRadians o.lat) * Real.sin (d / EARTH_RADIUS_METERS) * Real.cos (toRadians θ))) :=
    mul_nonneg (le_of_lt hc1pos) hc2_0
  have hBcos : Real.cos (toRadians o.lat) * Real.cos (Real.arcsin (Real.sin (toRadians o.lat) * Real.cos (d / EARTH_RADIUS_METERS) + Real.cos (toRadians o.lat) * Real.sin (d / EARTH_RADIUS_METERS) * Real.cos (toRadians θ))) *
      Real.cos (atan2 (Real.sin (toRadians θ) * Real.sin (d / EARTH_RADIUS_METERS) * Real.cos (toRadians o.lat)) (Real.cos (d / EARTH_RADIUS_METERS) - Real.sin (toRadians o.lat) * (Real.sin (toRadians o.lat) * Real.cos (d / EARTH_RADIUS_METERS) + Real.cos (toRadians o.lat) * Real.sin (d / EARTH_RADIUS_METERS) * Real.cos (toRadians θ)))) = (Real.cos (d / EARTH_RADIUS_METERS) - Real.sin (toRadians o.lat) * (Real.sin (toRadians o.lat) * Real.cos (d / EARTH_RADIUS_METERS) + Real.cos (toRadians o.lat) * Real.sin (d / EARTH_RADIUS_METERS) * Real.cos (toRadians θ))) :=
    mul_cos_atan2 (Real.sin (toRadians θ) * Real.sin (d / EARTH_RADIUS_METERS) * Real.cos (toRadians o.lat)) (Real.cos (d / EARTH_RADIUS_METERS) - Real.sin (toRadians o.lat) * (Real.sin (toRadians o.lat) * Real.cos (d / EARTH_RADIUS_METERS) + Real.cos (toRadians o.lat) * Real.sin (d / EARTH_RADIUS_METERS) * Real.cos (toRadians θ))) _ hnn hAB
  have hAsin : Real.cos (toRadians o.lat) * Real.cos (Real.arcsin (Real.sin (toRadians o.lat) * Real.cos (d / EARTH_RADIUS_METERS) + Real.cos (toRadians o.lat) * Real.sin (d / EARTH_RADIUS_METERS) * Real.cos (toRadians θ))) *
      Real.sin (atan2 (Real.sin (toRadians θ) * Real.sin (d / EARTH_RADIUS_METERS) * Real.cos (toRadians o.lat)) (Real.cos (d / EARTH_RADIUS_METERS) - Real.sin (toRadians o.lat) * (Real.sin (toRadians o.lat) * Real.cos (d / EARTH_RADIUS_METERS) + Real.cos (toRadians o.lat) * Real.sin (d / EARTH_RADIUS_METERS) * Real.cos (toRadians θ)))) = (Real.sin (toRadians θ) * Real.sin (d / EARTH_RADIUS_METERS) * Real.cos (toRadians o.lat)) :=
    mul_sin_atan2 (Real.sin (toRadians θ) * Real.sin (d / EARTH_RADIUS_METERS) * Real.cos (toRadians o.lat)) (Real.cos (d / EARTH_RADIUS_METERS) - Real.sin (toRadians o.lat) * (Real.sin (toRadians o.lat) * Real.cos (d / EARTH_RADIUS_METERS) + Real.cos (toRadians o.lat) * Real.sin (d / EARTH_RADIUS_METERS) * Real.cos (toRadians θ))) _ hnn hAB
  have hY : Real.sin (atan2 (Real.sin (toRadians θ) * Real.sin (d / EARTH_RADIUS_METERS) * Real.cos (toRadians o.lat)) (Real.cos (d / EARTH_RADIUS_METERS) - Real.sin (toRadians o.lat) * (Real.sin (toRadians o.lat) * Real.cos (d / EARTH_RADIUS_METERS) + Real.cos (toRadians o.lat) * Real.sin (d / EARTH_RADIUS_METERS) * Real.cos (toRadians θ)))) * Real.cos (Real.arcsin (Real.sin (toRadians o.lat) * Real.cos (d / EARTH_RADIUS_METERS) + Real.cos (toRadians o.lat) * Real.sin (d / EARTH_RADIUS_METERS) * Real.cos (toRadians θ))) =
      Real.sin (toRadians θ) * Real.sin (d / EARTH_RADIUS_METERS) := by
    apply mul_left_cancel₀ (ne_of_gt hc1pos)
    linear_combination hAsin
  have hX : Real.cos (toRadians o.lat) * (Real.sin (toRadians o.lat) * Real.cos (d / EARTH_RADIUS_METERS) + Real.cos (toRadians o.lat) * Real.sin (d / EARTH_RADIUS_METERS) * Real.cos (toRadians θ)) -
      Real.sin (toRadians o.lat) * Real.cos (Real.arcsin (Real.sin (toRadians o.lat) * Real.cos (d / EARTH_RADIUS_METERS) + Real.cos (toRadians o.lat) * Real.sin (d / EARTH_RADIUS_METERS) * Real.cos (toRadians θ))) * Real.cos (atan2 (Real.sin (toRadians θ) * Real.sin (d / EARTH_RADIUS_METERS) * Real.cos (toRadians o.lat)) (Real.cos (d / EARTH_RADIUS_METERS) - Real.sin (toRadians o.lat) * (Real.sin (toRadians o.lat) * Real.cos (d / EARTH_RADIUS_METERS) + Real.cos (toRadians o.lat) * Real.sin (d / EARTH_RADIUS_METERS) * Real.cos (toRadians θ)))) =
      Real.sin (d / EARTH_RADIUS_METERS) * Real.cos (toRadians θ) := by
    apply mul_left_cancel₀ (ne_of_gt hc1pos)
    linear_combination (-Real.sin (toRadians o.lat)) * hBcos + (Real.sin (toRadians o.lat) * Real.cos (d / EARTH_RADIUS_METERS) + Real.cos (toRadians o.lat) * Real.sin (d / EARTH_RADIUS_METERS) * Real.cos (toRadians θ)) * hpy1
  rw [hY, hX]
  have hxy : (Real.sin (d / EARTH_RADIUS_METERS) * Real.cos (toRadians θ)) ^ 2 +
      (Real.sin (toRadians θ) * Real.sin (d / EARTH_RADIUS_METERS)) ^ 2 =
      Real.sin (d / EARTH_RADIUS_METERS) ^ 2 := by
    linear_combination Real.sin (d / EARTH_RADIUS_METERS) ^ 2 * hpyβ
  constructor
  · apply mul_left_cancel₀ (ne_of_gt hsδpos)
    linear_combination mul_sin_atan2 (Real.sin (toRadians θ) * Real.sin (d / EARTH_RADIUS_METERS))
      (Real.sin (d / EARTH_RADIUS_METERS) * Real.cos (toRadians θ))
      (Real.sin (d / EARTH_RADIUS_METERS)) (le_of_lt hsδpos) hxy
  · apply mul_left_cancel₀ (ne_of_gt hsδpos)
    linear_combination mul_cos_atan2 (Real.sin (toRadians θ) * Real.sin (d / EARTH_RADIUS_METERS))
      (Real.sin (d / EARTH_RADIUS_METERS) * Real.cos (toRadians θ))
      (Real.sin (d / EARTH_RADIUS_METERS)) (le_of_lt hsδpos) hxy

/-- C9: projecting from any valid origin along any bearing by a distance
below 10,000 meters and measuring back with the haversine distance recovers
the distance exactly in the real-number model (hence within sub-meter
tolerance). -/
theorem distance_destination_roundtrip (origin : Coordinate) (θ d : ℝ)
    (hlat1 : -90 ≤ origin.lat) (hlat2 : origin.lat ≤ 90)
    (hd0 : 0 ≤ d) (hd1 : d < 10000) :
    calculateDistance origin (getDestination origin θ d) = d :=
  dest_dist origin θ d hlat1 hlat2 hd0 (by linarith)

/-- C9 witness: a concrete 1000 meter projection from the origin at bearing
45 degrees measures back to exactly 1000 meters. -/
theorem distance_destination_roundtrip_witness :
    calculateDistance ⟨0, 0⟩ (getDestination ⟨0, 0⟩ 45 1000) = 1000 :=
  distance_destination_roundtrip ⟨0, 0⟩ 45 1000 (by norm_num) (by norm_num)
    (by norm_num) (by norm_num)

/-- C8: offsetting from the start of a non-degenerate reference segment by a
positive distance at a bearing 90° clockwise of the segment bearing gives a
positive cross-track distance, and 90° counter-clockwise gives a negative
one (positive = right of the line, negative = left). -/
theorem crossTrack_sign (S E : Coordinate) (δ : ℝ)
    (hlat1 : -90 < S.lat) (hlat2 : S.lat < 90) (hne : S ≠ E)
    (hδ0 : 0 < δ) (hδ1 : δ ≤ 10000000) :
    0 < calculateCrossTrackDistance (getDestination S (calculateBearing S E + 90) δ) S E
    ∧ calculateCrossTrackDistance (getDestination S (calculateBearing S E - 90) δ) S E < 0 := by
  have hR : (0 : ℝ) < EARTH_RADIUS_METERS := by unfold EARTH_RADIUS_METERS; norm_num
  have hδR0 : 0 < δ / EARTH_RADIUS_METERS := div_pos hδ0 hR
  have hδRhalf : δ / EARTH_RADIUS_METERS ≤ Real.pi / 2 := by
    unfold EARTH_RADIUS_METERS
    rw [div_le_iff₀ (by norm_num : (0 : ℝ) < 6371000)]
    nlinarith [Real.pi_gt_d6]
  have hdist1 : calculateDistance S (getDestination S (calculateBearing S E + 90) δ) = δ :=
    dest_dist S (calculateBearing S E + 90) δ (le_of_lt hlat1) (le_of_lt hlat2)
      (le_of_lt hδ0) (by linarith)
  have hdist2 : calculateDistance S (getDestination S (calculateBearing S E - 90) δ) = δ :=
    dest_dist S (calculateBearing S E - 90) δ (le_of_lt hlat1) (le_of_lt hlat2)
      (le_of_lt hδ0) (by linarith)
  have hb1 := dest_bearing S (calculateBearing S E + 90) δ hlat1 hlat2 hδ0 (by linarith)
  have hb2 := dest_bearing S (calculateBearing S E - 90) δ hlat1 hlat2 hδ0 (by linarith)
  constructor
  · simp only [calculateCrossTrackDistance, hdist1]
    have hsin : Real.sin (toRadians (calculateBearing S
        (getDestination S (calculateBearing S E + 90) δ)) -
        toRadians (calculateBearing S E)) = 1 := by
      rw [Real.sin_sub, hb1.1, hb1.2,
        show toRadians (calculateBearing S E + 90) =
          toRadians (calculateBearing S E) + Real.pi / 2 by unfold toRadians; ring,
        Real.sin_add_pi_div_two, Real.cos_add_pi_div_two]
      linear_combination Real.sin_sq_add_cos_sq (toRadians (calculateBearing S E))
    rw [hsin, mul_one, Real.arcsin_sin (by linarith [Real.pi_pos]) hδRhalf]
    positivity
  · simp only [calculateCrossTrackDistance, hdist2]
    have hsin : Real.sin (toRadians (calculateBearing S
        (getDestination S (calculateBearing S E - 90) δ)) -
        toRadians (calculateBearing S E)) = -1 := by
      rw [Real.sin_sub, hb2.1, hb2.2,
        show toRadians (calculateBearing S E - 90) =
          toRadians (calculateBearing S E) - Real.pi / 2 by unfold toRadians; ring,
        Real.sin_sub_pi_div_two, Real.cos_sub_pi_div_two]
      linear_combination (-1 : ℝ) * Real.sin_sq_add_cos_sq (toRadians (calculateBearing S E))
    rw [hsin, mul_neg_one, Real.arcsin_neg,
      Real.arcsin_sin (by linarith [Real.pi_pos]) hδRhalf]
    have : 0 < δ / EARTH_RADIUS_METERS * EARTH_RADIUS_METERS := by positivity
    linarith

/-- C8 witness: a 100 meter perpendicular offset at the equator lands right
of the west→east reference line with positive cross-track sign, and left
with negative sign. -/
theorem crossTrack_sign_witness :
    0 < calculateCrossTrackDistance
      (getDestination ⟨0, 0⟩ (calculateBearing ⟨0, 0⟩ ⟨0, 1⟩ + 90) 100) ⟨0, 0⟩ ⟨0, 1⟩
    ∧ calculateCrossTrackDistance
      (getDestination ⟨0, 0⟩ (calculateBearing ⟨0, 0⟩ ⟨0, 1⟩ - 90) 100) ⟨0, 0⟩ ⟨0, 1⟩ < 0 := by
  refine crossTrack_sign ⟨0, 0⟩ ⟨0, 1⟩ 100 (by norm_num) (by norm_num) ?_ (by norm_num) (by norm_num)
  intro h
  have h2 := congrArg Coordinate.lng h
  norm_num at h2
